import Mathlib

/-!
# Verification of the opencode-openmemory memory backend adapter

This file gives a shallow embedding, in Lean 4, of the pure core of the
`opencode-openmemory` plugin: the response normalization and profile
partitioning of `OpenMemoryRESTClient` (src/services/client.ts), the context
formatter (src/services/context.ts), scope identifier composition, the
`openmemory` tool command router (plugin entry point), and the temporal fact
comparison contract.

Embedding conventions:
* TypeScript optional fields become `Option`; JavaScript numbers that hold
  scores/salience become `ℚ` (they are decimal fractions in `[0,1]`);
  millisecond epoch timestamps become `Int`.
* `x ?? y` becomes `Option.getD`; JavaScript truthiness tests (`x ? a : b`,
  `x || y`) on numbers test `≠ 0`, on strings test `≠ ""`, and on optional
  values test presence, which is made explicit at each use site.
* `Math.round x` is `⌊x + 1/2⌋` (ECMAScript rounds half toward +∞).
* `Array.prototype.sort` with a consistent comparator is a stable sort
  (ES2019); it is embedded as `List.insertionSort`, which is stable and
  agrees with every stable sort for the induced total preorder.
* Asynchronous HTTP calls are embedded by parametrizing each operation over
  the backend response it would receive.
-/

/-- The normalized memory shape from src/types/index.ts (`MemoryItem`).
Fields not used by any verified operation (`tags`, `metadata`, `updatedAt`)
are omitted. -/
structure MemoryItem where
  id : String
  content : String
  score : Option ℚ := none
  salience : Option ℚ := none
  sector : Option String := none
  createdAt : Option Int := none
deriving DecidableEq

/-- One entry of `OpenMemoryQueryResponse.matches` (src/services/client.ts). -/
structure QueryMatch where
  id : String
  content : String
  score : Option ℚ := none
  salience : Option ℚ := none
  primary_sector : Option String := none
deriving DecidableEq

/-- The per-match normalization inside `OpenMemoryRESTClient.searchMemories`
(src/services/client.ts lines 140–146):
`{ id, content, score: m.score ?? m.salience ?? 1, salience: m.salience,
sector: m.primary_sector }`.  No `createdAt` is ever set. -/
def normalizeQueryMatch (m : QueryMatch) : MemoryItem :=
  { id := m.id
    content := m.content
    score := some (m.score.getD (m.salience.getD 1))
    salience := m.salience
    sector := m.primary_sector
    createdAt := none }

/-- `SearchMemoriesResult` from src/types/index.ts. -/
structure SearchMemoriesResult where
  success : Bool
  results : List MemoryItem
  total : Nat
  error : Option String := none
deriving DecidableEq

/-- The success branch of `searchMemories`: normalize each match and report
the count (src/services/client.ts lines 139–149). -/
def searchMemoriesSuccess (ms : List QueryMatch) : SearchMemoriesResult :=
  { success := true
    results := ms.map normalizeQueryMatch
    total := (ms.map normalizeQueryMatch).length }

/-- The `profile` payload of `ProfileResult` (src/types/index.ts). -/
structure ProfileData where
  static : List String
  dynamic : List String
deriving DecidableEq

/-- `ProfileResult` from src/types/index.ts. -/
structure ProfileResult where
  success : Bool
  profile : Option ProfileData := none
  error : Option String := none
deriving DecidableEq

/-- The static filter of `getProfile` (src/services/client.ts line 313):
`m.createdAt && new Date(m.createdAt).getTime() < oneWeekAgo`.
An absent timestamp is falsy, so the item is never static. -/
def isStaticItem (oneWeekAgo : Int) (m : MemoryItem) : Bool :=
  match m.createdAt with
  | some t => decide (t < oneWeekAgo)
  | none => false

/-- The dynamic filter of `getProfile` (src/services/client.ts line 318):
`!m.createdAt || new Date(m.createdAt).getTime() >= oneWeekAgo`. -/
def isDynamicItem (oneWeekAgo : Int) (m : MemoryItem) : Bool :=
  match m.createdAt with
  | some t => decide (t ≥ oneWeekAgo)
  | none => true

/-- `OpenMemoryRESTClient.getProfile` (src/services/client.ts lines 298–329)
after its inner `searchMemories` call resolved to `result`, with `Date.now()`
as `now` and `CONFIG.maxProfileItems` as `maxProfileItems`.  On retrieval
failure the error is propagated; on success the results are partitioned by
the one-week boundary and each bucket is truncated. -/
def getProfileFromSearch (result : SearchMemoriesResult) (now : Int)
    (maxProfileItems : Nat) : ProfileResult :=
  if result.success = false then
    { success := false, error := result.error }
  else
    let oneWeekAgo := now - 7 * 24 * 60 * 60 * 1000
    let staticFacts :=
      ((result.results.filter (isStaticItem oneWeekAgo)).take maxProfileItems).map
        (·.content)
    let dynamicFacts :=
      ((result.results.filter (isDynamicItem oneWeekAgo)).take maxProfileItems).map
        (·.content)
    { success := true, profile := some { static := staticFacts, dynamic := dynamicFacts } }

/-- `getProfile` composed with a successful `searchMemories` backend query:
the REST pipeline that claims about the static bucket quantify over. -/
def getProfileFromMatches (ms : List QueryMatch) (now : Int) (cap : Nat) :
    ProfileResult :=
  getProfileFromSearch (searchMemoriesSuccess ms) now cap

/-- C1 counterexample: a query match with neither a numeric `score` nor a
numeric `salience` is normalized to a `MemoryItem` whose `score` is `some 1`,
not an absent field, refuting the claim that such a score stays absent. -/
theorem searchMemories_score_absent_counterexample :
    (normalizeQueryMatch { id := "m1", content := "c" }).score ≠ none
    ∧ (normalizeQueryMatch { id := "m1", content := "c" }).score = some 1 := by
  constructor
  · simp [normalizeQueryMatch]
  · rfl

/-- C1 (amended): `searchMemories` normalization gives every item a present
score via the fallback chain `score ?? salience ?? 1` — a match with neither
field gets the default `1`, a match with only `salience` gets that salience,
a match with a score keeps it — while a missing `salience` stays absent. -/
theorem searchMemories_score_fallback (m : QueryMatch) :
    (m.score = none → m.salience = none → (normalizeQueryMatch m).score = some 1)
    ∧ (∀ s : ℚ, m.score = none → m.salience = some s →
        (normalizeQueryMatch m).score = some s)
    ∧ (∀ s : ℚ, m.score = some s → (normalizeQueryMatch m).score = some s)
    ∧ (normalizeQueryMatch m).salience = m.salience
    ∧ (m.salience = none → (normalizeQueryMatch m).salience = none) := by
  refine ⟨?_, ?_, ?_, rfl, ?_⟩
  · intro h1 h2; simp [normalizeQueryMatch, h1, h2]
  · intro s h1 h2; simp [normalizeQueryMatch, h1, h2]
  · intro s h1; simp [normalizeQueryMatch, h1]
  · intro h; simpa [normalizeQueryMatch] using h

/-- C1 witness: the amended fallback evaluated on concrete matches. -/
theorem searchMemories_score_fallback_witness :
    (normalizeQueryMatch { id := "a", content := "c" }).score = some 1
    ∧ (normalizeQueryMatch { id := "a", content := "c", salience := some (1/2) }).score
        = some (1/2)
    ∧ (normalizeQueryMatch { id := "a", content := "c", score := some (3/4) }).score
        = some (3/4)
    ∧ (normalizeQueryMatch { id := "a", content := "c" }).salience = none :=
  ⟨(searchMemories_score_fallback { id := "a", content := "c" }).1 rfl rfl,
   (searchMemories_score_fallback
      { id := "a", content := "c", salience := some (1/2) }).2.1 (1/2) rfl rfl,
   (searchMemories_score_fallback
      { id := "a", content := "c", score := some (3/4) }).2.2.1 (3/4) rfl,
   (searchMemories_score_fallback { id := "a", content := "c" }).2.2.2.2 rfl⟩

/-- C3: for every successful retrieval, `getProfile` partitions items into two
complementary buckets — static exactly when a creation timestamp exists and is
strictly older than one week, dynamic otherwise (absent timestamps are always
dynamic) — and each bucket is a ≤`cap` prefix-truncated, order-preserving
selection of the retrieved contents; with `cap = 1` each bucket has at most
one item. -/
theorem getProfile_partition (now : Int) (cap : Nat) (items : List MemoryItem) :
    (∀ m : MemoryItem,
      isDynamicItem (now - 7 * 24 * 60 * 60 * 1000) m
        = !(isStaticItem (now - 7 * 24 * 60 * 60 * 1000) m))
    ∧ (∀ m : MemoryItem, m.createdAt = none →
        isStaticItem (now - 7 * 24 * 60 * 60 * 1000) m = false
        ∧ isDynamicItem (now - 7 * 24 * 60 * 60 * 1000) m = true)
    ∧ (∀ (m : MemoryItem) (t : Int), m.createdAt = some t →
        (isStaticItem (now - 7 * 24 * 60 * 60 * 1000) m = true
          ↔ t < now - 7 * 24 * 60 * 60 * 1000))
    ∧ ∃ pr : ProfileData,
        (getProfileFromSearch
            { success := true, results := items, total := items.length } now cap).profile
          = some pr
        ∧ pr.static.length ≤ cap ∧ pr.dynamic.length ≤ cap
        ∧ pr.static.Sublist (items.map (·.content))
        ∧ pr.dynamic.Sublist (items.map (·.content))
        ∧ (cap = 1 → pr.static.length ≤ 1 ∧ pr.dynamic.length ≤ 1) := by
  refine ⟨?_, ?_, ?_, ?_⟩
  · intro m
    cases h : m.createdAt with
    | none => simp [isStaticItem, isDynamicItem, h]
    | some t =>
      simp only [isStaticItem, isDynamicItem, h, ← decide_not]
      rw [decide_eq_decide]
      omega
  · intro m h; simp [isStaticItem, isDynamicItem, h]
  · intro m t h; simp [isStaticItem, h]
  · refine ⟨_, rfl, ?_, ?_, ?_, ?_, ?_⟩
    · simp
    · simp
    · exact ((List.take_sublist _ _).trans (List.filter_sublist _)).map _
    · exact ((List.take_sublist _ _).trans (List.filter_sublist _)).map _
    · intro h1
      subst h1
      constructor
      · simp
      · simp

/-- C3 witness: an item created 8 days ago is static, one created 1 day ago is
dynamic, and with cap 1 each bucket of a concrete two-item profile holds at
most one entry. -/
theorem getProfile_partition_witness :
    (isStaticItem (864000000 - 7 * 24 * 60 * 60 * 1000)
        { id := "old", content := "o", createdAt := some 172800000 } = true
      ↔ (172800000 : Int) < 864000000 - 7 * 24 * 60 * 60 * 1000)
    ∧ (isStaticItem (864000000 - 7 * 24 * 60 * 60 * 1000)
        { id := "new", content := "n", createdAt := none } = false
        ∧ isDynamicItem (864000000 - 7 * 24 * 60 * 60 * 1000)
            { id := "new", content := "n", createdAt := none } = true) :=
  ⟨(getProfile_partition 864000000 1
      [{ id := "old", content := "o", createdAt := some 172800000 }]).2.2.1
      { id := "old", content := "o", createdAt := some 172800000 } 172800000 rfl,
   (getProfile_partition 864000000 1
      [{ id := "new", content := "n", createdAt := none }]).2.1
      { id := "new", content := "n", createdAt := none } rfl⟩

/-- C4: the REST search normalizer never sets `createdAt`, so a profile built
from any successful backend query response has an empty static bucket and a
dynamic bucket holding the first `cap` normalized contents. -/
theorem getProfile_static_always_empty (ms : List QueryMatch) (now : Int) (cap : Nat) :
    (getProfileFromMatches ms now cap).profile
      = some { static := [],
               dynamic := ((ms.map normalizeQueryMatch).take cap).map (·.content) } := by
  unfold getProfileFromMatches getProfileFromSearch searchMemoriesSuccess
  simp only [reduceIte]
  have hstat :
      (ms.map normalizeQueryMatch).filter
        (isStaticItem (now - 7 * 24 * 60 * 60 * 1000)) = [] := by
    refine List.filter_eq_nil_iff.mpr ?_
    intro a ha
    obtain ⟨m, _, rfl⟩ := List.mem_map.mp ha
    simp [isStaticItem, normalizeQueryMatch]
  have hdyn :
      (ms.map normalizeQueryMatch).filter
        (isDynamicItem (now - 7 * 24 * 60 * 60 * 1000)) = ms.map normalizeQueryMatch := by
    refine List.filter_eq_self.mpr ?_
    intro a ha
    obtain ⟨m, _, rfl⟩ := List.mem_map.mp ha
    simp [isDynamicItem, normalizeQueryMatch]
  rw [hstat, hdyn]
  simp

/-- C8: whenever the underlying retrieval failed, `getProfile` returns a
failure envelope carrying the retrieval error, with no profile payload. -/
theorem getProfile_propagates_failure (r : SearchMemoriesResult) (now : Int)
    (cap : Nat) (h : r.success = false) :
    getProfileFromSearch r now cap
      = { success := false, profile := none, error := r.error } := by
  simp [getProfileFromSearch, h]

/-- C8 witness: a concrete failed retrieval propagates its error. -/
theorem getProfile_propagates_failure_witness :
    getProfileFromSearch
        { success := false, results := [], total := 0, error := some "HTTP 500: boom" }
        1000 5
      = { success := false, profile := none, error := some "HTTP 500: boom" } :=
  getProfile_propagates_failure
    { success := false, results := [], total := 0, error := some "HTTP 500: boom" }
    1000 5 rfl

/-- `MemoryScopeContext` from src/types/index.ts. -/
structure MemoryScopeContext where
  userId : String
  projectId : Option String := none
deriving DecidableEq

/-- `OpenMemoryRESTClient.getScopeUserId` (src/services/client.ts lines
103–108), with `CONFIG.scopePrefix` as `pre`.  The JavaScript test
`if (scope.projectId)` is truthiness: an absent or empty project id takes the
user-scope branch. -/
def getScopeUserId (pre : String) (scope : MemoryScopeContext) : String :=
  match scope.projectId with
  | some p =>
    if p = "" then pre ++ ":" ++ scope.userId
    else pre ++ ":" ++ scope.userId ++ ":" ++ p
  | none => pre ++ ":" ++ scope.userId

/-- C5 counterexample: the composed identifier is not injective over all
strings — a user scope whose user id contains the delimiter collides with a
project scope: `{userId: "a:b"}` and `{userId: "a", projectId: "b"}` both map
to `"opencode:a:b"`. -/
theorem getScopeUserId_collision_counterexample :
    getScopeUserId "opencode" { userId := "a:b" }
      = getScopeUserId "opencode" { userId := "a", projectId := some "b" }
    ∧ ({ userId := "a:b" } : MemoryScopeContext)
      ≠ { userId := "a", projectId := some "b" } := by
  constructor
  · decide
  · decide

/-- If a delimiter character occurs in neither prefix, splitting a
concatenation at its unique occurrence is unambiguous. -/
theorem append_cons_inj_of_not_mem {c : Char} :
    ∀ (a1 a2 b1 b2 : List Char), c ∉ a1 → c ∉ a2 →
      a1 ++ c :: b1 = a2 ++ c :: b2 → a1 = a2 ∧ b1 = b2 := by
  intro a1
  induction a1 with
  | nil =>
    intro a2 b1 b2 _ h2 heq
    cases a2 with
    | nil => simpa using heq
    | cons x xs =>
      simp only [List.nil_append, List.cons_append, List.cons.injEq] at heq
      exact absurd (heq.1 ▸ List.mem_cons_self x xs) h2
  | cons x xs ih =>
    intro a2 b1 b2 h1 h2 heq
    cases a2 with
    | nil =>
      simp only [List.cons_append, List.nil_append, List.cons.injEq] at heq
      exact absurd (heq.1.symm ▸ List.mem_cons_self x xs) h1
    | cons y ys =>
      simp only [List.cons_append, List.cons.injEq] at heq
      obtain ⟨rfl, heq⟩ := heq
      have h1' : c ∉ xs := fun hm => h1 (List.mem_cons_of_mem _ hm)
      have h2' : c ∉ ys := fun hm => h2 (List.mem_cons_of_mem _ hm)
      obtain ⟨rfl, rfl⟩ := ih ys b1 b2 h1' h2' heq
      exact ⟨rfl, rfl⟩

/-- C5 (amended): the composed identifier is injective over scope contexts
whose user ids do not contain the `':'` delimiter and whose project ids, when
present, are nonempty — both hold for the repository's hex-hash identities.
In particular two different projects under one user, two different users, and
a user scope versus a project scope never collide under these conditions. -/
theorem getScopeUserId_injective_amended (pre : String) (s1 s2 : MemoryScopeContext)
    (h1 : (':' : Char) ∉ s1.userId.data) (h2 : (':' : Char) ∉ s2.userId.data)
    (hp1 : ∀ p, s1.projectId = some p → p ≠ "")
    (hp2 : ∀ p, s2.projectId = some p → p ≠ "")
    (heq : getScopeUserId pre s1 = getScopeUserId pre s2) : s1 = s2 := by
  obtain ⟨u1, o1⟩ := s1
  obtain ⟨u2, o2⟩ := s2
  simp only at h1 h2 hp1 hp2
  have hdata := congrArg String.data heq
  have hc : (":" : String).data = [':'] := rfl
  cases o1 with
  | none =>
    cases o2 with
    | none =>
      simp only [getScopeUserId, String.data_append, List.append_assoc] at hdata
      have hu := List.append_cancel_left (List.append_cancel_left hdata)
      simp [String.ext hu]
    | some p2 =>
      have hp2' := hp2 p2 rfl
      simp only [getScopeUserId, if_neg hp2', String.data_append, List.append_assoc]
        at hdata
      have hu := List.append_cancel_left (List.append_cancel_left hdata)
      have : (':' : Char) ∈ u1.data := by rw [hu]; simp [hc]
      exact absurd this h1
  | some p1 =>
    have hp1' := hp1 p1 rfl
    cases o2 with
    | none =>
      simp only [getScopeUserId, if_neg hp1', String.data_append, List.append_assoc]
        at hdata
      have hu := List.append_cancel_left (List.append_cancel_left hdata)
      have : (':' : Char) ∈ u2.data := by rw [← hu]; simp [hc]
      exact absurd this h2
    | some p2 =>
      have hp2' := hp2 p2 rfl
      simp only [getScopeUserId, if_neg hp1', if_neg hp2', String.data_append,
        List.append_assoc] at hdata
      have htail := List.append_cancel_left (List.append_cancel_left hdata)
      rw [List.singleton_append, List.singleton_append] at htail
      obtain ⟨hu, hp⟩ :=
        append_cons_inj_of_not_mem u1.data u2.data p1.data p2.data h1 h2 htail
      simp [String.ext hu, String.ext hp]

/-- C5 witness: the amended injectivity applied to two concrete scope
contexts with colon-free user ids and a nonempty project id. -/
theorem getScopeUserId_injective_amended_witness :
    ({ userId := "u", projectId := some "p" } : MemoryScopeContext)
      = { userId := "u", projectId := some "p" } :=
  getScopeUserId_injective_amended "opencode"
    { userId := "u", projectId := some "p" }
    { userId := "u", projectId := some "p" }
    (by decide) (by decide)
    (fun p hp => by injection hp with h; subst h; decide)
    (fun p hp => by injection hp with h; subst h; decide)
    rfl

/-- The two retrieval knobs of `CONFIG` read by the formatter
(src/config.ts: `injectProfile`, `maxProfileItems`). -/
structure FormatterConfig where
  injectProfile : Bool
  maxProfileItems : Nat
deriving DecidableEq

/-- `MemoriesResponseMinimal` from src/services/context.ts. -/
structure MemoriesResponseMinimal where
  results : Option (List MemoryItem) := none
  memories : Option (List MemoryItem) := none
deriving DecidableEq

/-- The fallback `r.results || r.memories || []` (src/services/context.ts
lines 34 and 52).  A present empty array is truthy in JavaScript, so only an
absent field falls through. -/
def responseItems (r : MemoriesResponseMinimal) : List MemoryItem :=
  match r.results with
  | some xs => xs
  | none => r.memories.getD []

/-- ECMAScript `Math.round`: round half toward positive infinity. -/
def jsRound (q : ℚ) : ℤ := ⌊q + 1 / 2⌋

/-- The per-item annotation number `x ? Math.round(x * 100) : null`
(src/services/context.ts lines 38–39, 56–57): a missing or zero (falsy)
value yields no annotation. -/
def numAnn (q : Option ℚ) : Option ℤ :=
  match q with
  | some s => if s = 0 then none else some (jsRound (s * 100))
  | none => none

/-- The "Project Knowledge" line for one item
(src/services/context.ts lines 37–48). -/
def projectLine (mem : MemoryItem) : String :=
  match numAnn mem.score with
  | some n => "- [" ++ toString n ++ "%] " ++ mem.content
  | none =>
    match numAnn mem.salience with
    | some n => "- [sal:" ++ toString n ++ "%] " ++ mem.content
    | none => "- " ++ mem.content

/-- The sector tag `mem.sector ? "[" + sector + "]" : ""`
(src/services/context.ts line 59). -/
def sectorTag (mem : MemoryItem) : String :=
  match mem.sector with
  | some s => if s = "" then "" else "[" ++ s ++ "]"
  | none => ""

/-- The "Relevant Memories" line for one item
(src/services/context.ts lines 55–67). -/
def userLine (mem : MemoryItem) : String :=
  match numAnn mem.score with
  | some n => "- " ++ sectorTag mem ++ "[" ++ toString n ++ "%] " ++ mem.content
  | none =>
    match numAnn mem.salience with
    | some n => "- " ++ sectorTag mem ++ "[sal:" ++ toString n ++ "%] " ++ mem.content
    | none => "- " ++ sectorTag mem ++ " " ++ mem.content

/-- `formatContextForPrompt` (src/services/context.ts lines 9–76): build the
parts list headed by the `[OPENMEMORY]` marker, append the profile sections
when profile injection is on, then project knowledge, then relevant
memories; return `""` when nothing beyond the marker was added, else the
newline join. -/
def formatContextForPrompt (cfg : FormatterConfig) (profile : Option ProfileResult)
    (userMemories projectMemories : MemoriesResponseMinimal) : String :=
  let parts : List String := ["[OPENMEMORY]"]
  let parts :=
    match profile with
    | some pr =>
      if cfg.injectProfile then
        match pr.profile with
        | some pd =>
          let parts :=
            if pd.static.length > 0 then
              parts ++ ["\nUser Profile:"]
                ++ ((pd.static.take cfg.maxProfileItems).map (fun f => "- " ++ f))
            else parts
          if pd.dynamic.length > 0 then
            parts ++ ["\nRecent Context:"]
              ++ ((pd.dynamic.take cfg.maxProfileItems).map (fun f => "- " ++ f))
          else parts
        | none => parts
      else parts
    | none => parts
  let projectResults := responseItems projectMemories
  let parts :=
    if projectResults.length > 0 then
      parts ++ ["\nProject Knowledge:"] ++ (projectResults.map projectLine)
    else parts
  let userResults := responseItems userMemories
  let parts :=
    if userResults.length > 0 then
      parts ++ ["\nRelevant Memories:"] ++ (userResults.map userLine)
    else parts
  if parts.length = 1 then "" else String.intercalate "\n" parts

/-- C6 counterexample: a project item whose `score` is present but `0` is
rendered without any percentage annotation (`score ? ...` is a JavaScript
truthiness test), refuting the claim that every present score is annotated. -/
theorem formatContext_zero_score_counterexample :
    formatContextForPrompt { injectProfile := true, maxProfileItems := 5 } none
        { results := none, memories := none }
        { results := some [{ id := "p1", content := "c", score := some 0 }],
          memories := none }
      = "[OPENMEMORY]\n\nProject Knowledge:\n- c"
    ∧ "[OPENMEMORY]\n\nProject Knowledge:\n- c"
      ≠ "[OPENMEMORY]\n\nProject Knowledge:\n- [0%] c" := by
  constructor
  · rfl
  · decide

/-- C6 (amended): the formatter returns the empty string whenever no section
contributes a line beyond the leading `[OPENMEMORY]` marker; an item line is
annotated with the rounded integer score percentage exactly when the score is
present and nonzero (truthy); when the score is absent or zero, a present
nonzero salience yields a distinct `sal:`-labeled percentage; otherwise the
line is unannotated; and one project item with score 0.82 renders as a line
containing `[82%]`. -/
theorem formatContext_spec :
    (∀ (cfg : FormatterConfig) (pr : Option ProfileResult)
        (uResp pResp : MemoriesResponseMinimal),
      (∀ x pd, pr = some x → x.profile = some pd →
        pd.static = [] ∧ pd.dynamic = []) →
      responseItems uResp = [] → responseItems pResp = [] →
      formatContextForPrompt cfg pr uResp pResp = "")
    ∧ (∀ (m : MemoryItem) (s : ℚ), m.score = some s → s ≠ 0 →
        projectLine m = "- [" ++ toString (jsRound (s * 100)) ++ "%] " ++ m.content
        ∧ userLine m
          = "- " ++ sectorTag m ++ "[" ++ toString (jsRound (s * 100)) ++ "%] "
            ++ m.content)
    ∧ (∀ (m : MemoryItem) (s : ℚ), m.score = none ∨ m.score = some 0 →
        m.salience = some s → s ≠ 0 →
        projectLine m = "- [sal:" ++ toString (jsRound (s * 100)) ++ "%] " ++ m.content)
    ∧ (∀ m : MemoryItem, m.score = none → m.salience = none →
        projectLine m = "- " ++ m.content)
    ∧ formatContextForPrompt { injectProfile := true, maxProfileItems := 5 } none
        { results := none, memories := none }
        { results := some [{ id := "p1", content := "c", score := some (82/100) }],
          memories := none }
      = "[OPENMEMORY]\n\nProject Knowledge:\n- [82%] c" := by
  refine ⟨?_, ?_, ?_, ?_, ?_⟩
  · intro cfg pr uResp pResp hpr hu hp
    unfold formatContextForPrompt
    rw [hu, hp]
    cases pr with
    | none => simp
    | some x =>
      cases hx : x.profile with
      | none => cases cfg.injectProfile <;> simp [hx]
      | some pd =>
        obtain ⟨hs, hd⟩ := hpr x pd rfl hx
        cases cfg.injectProfile <;> simp [hx, hs, hd]
  · intro m s hs hsne
    constructor
    · simp [projectLine, numAnn, hs, hsne]
    · simp [userLine, numAnn, hs, hsne]
  · intro m s hsc hsal hsne
    rcases hsc with h | h <;> simp [projectLine, numAnn, h, hsal, hsne]
  · intro m h1 h2
    simp [projectLine, numAnn, h1, h2]
  · have h82 : numAnn (some ((82 : ℚ) / 100)) = some 82 := by
      have hr : jsRound ((82 : ℚ) / 100 * 100) = 82 := by
        rw [jsRound, show ((82 : ℚ) / 100 * 100 + 1 / 2) = 165 / 2 by norm_num,
          Int.floor_eq_iff]
        constructor <;> norm_num
      rw [numAnn, if_neg (by norm_num), hr]
    have hline : projectLine { id := "p1", content := "c", score := some ((82 : ℚ) / 100) }
        = "- [82%] c" := by
      simp only [projectLine, h82]
      decide
    simp only [formatContextForPrompt, responseItems, List.map_cons, List.map_nil, hline]
    decide

/-- C6 witness: the empty-input case returns `""`, and a concrete item with
score 0.55 gets the `[55%]` annotation. -/
theorem formatContext_spec_witness :
    formatContextForPrompt { injectProfile := true, maxProfileItems := 5 }
        (some { success := true, profile := some { static := [], dynamic := [] } })
        { results := some [], memories := none }
        { results := none, memories := some [] }
      = ""
    ∧ projectLine { id := "x", content := "c", score := some (55/100) }
      = "- [" ++ toString (jsRound ((55 : ℚ)/100 * 100)) ++ "%] " ++ "c" :=
  ⟨formatContext_spec.1 { injectProfile := true, maxProfileItems := 5 }
      (some { success := true, profile := some { static := [], dynamic := [] } })
      { results := some [], memories := none }
      { results := none, memories := some [] }
      (fun x pd hx hpd => by
        injection hx with hx
        subst hx
        injection hpd with hpd
        subst hpd
        exact ⟨rfl, rfl⟩)
      rfl rfl,
   (formatContext_spec.2.1 { id := "x", content := "c", score := some (55/100) }
      (55/100) rfl (by norm_num)).1⟩

/-- A search result tagged with its originating scope, as built by the
no-scope branch of the `openmemory` tool's "search" mode
(plugin entry point lines 370–379): `{...r, scope: "user" | "project"}`. -/
structure ScopedMemoryItem where
  item : MemoryItem
  scope : String
deriving DecidableEq

/-- The sort key `a.score || 0` of the merge comparator (plugin entry point
line 379).  Scores produced by `searchMemories` are always present, but the
comparator still guards with `|| 0`. -/
def scoreOrZero (x : ScopedMemoryItem) : ℚ := x.item.score.getD 0

/-- The total preorder induced by the comparator
`(a, b) => (b.score || 0) - (a.score || 0)`: `a` may precede `b` exactly when
the comparator is ≤ 0, i.e. score descending. -/
def searchDescRel (a b : ScopedMemoryItem) : Prop := scoreOrZero b ≤ scoreOrZero a

instance : DecidableRel searchDescRel :=
  fun a b => inferInstanceAs (Decidable (scoreOrZero b ≤ scoreOrZero a))

instance : IsTotal ScopedMemoryItem searchDescRel :=
  ⟨fun a b => le_total (scoreOrZero b) (scoreOrZero a)⟩

instance : IsTrans ScopedMemoryItem searchDescRel :=
  ⟨fun _ _ _ h1 h2 => le_trans h2 h1⟩

/-- Scope tagging `(r) => ({...r, scope})` applied to a result list. -/
def tagScope (sc : String) (items : List MemoryItem) : List ScopedMemoryItem :=
  items.map (fun m => { item := m, scope := sc })

/-- JavaScript `limit || d`: an absent or zero (falsy) limit falls back to
the default. -/
def jsOrDefault (limit : Option Nat) (d : Nat) : Nat :=
  match limit with
  | some n => if n = 0 then d else n
  | none => d

/-- The no-scope branch of the "search" command (plugin entry point lines
357–393): tag the user-scope and project-scope results, concatenate (user
first), sort with the stable `Array.prototype.sort` under the score-descending
comparator, and truncate with `combined.slice(0, args.limit || 10)`. -/
def searchBothScopes (userResults projectResults : List MemoryItem)
    (limit : Option Nat) : List ScopedMemoryItem :=
  let combined := tagScope "user" userResults ++ tagScope "project" projectResults
  (List.insertionSort searchDescRel combined).take (jsOrDefault limit 10)

/-- C2 counterexample: with an explicitly requested limit of `0` the command
returns one item rather than an empty list — `args.limit || 10` treats the
falsy `0` as "no limit", so the output is not truncated to the requested
limit. -/
theorem search_limit_zero_counterexample :
    (searchBothScopes [{ id := "u1", content := "c", score := some 1 }] []
        (some 0)).length = 1
    ∧ ¬((searchBothScopes [{ id := "u1", content := "c", score := some 1 }] []
        (some 0)).length ≤ 0) := by
  constructor
  · decide
  · decide

/-- C2 (amended): the no-scope "search" fan-out returns the concatenation of
tagged user-scope and project-scope results, stably sorted by score
descending — the output is pairwise score-descending, the sorted list is a
permutation of the concatenation, and any pair already in comparator order
(in particular any tie, so user items stay before project items at equal
score) keeps its relative input order — truncated to the requested limit when
it is nonzero, and to 10 when no limit is given or the requested limit is the
falsy `0`; a project item with score 0.95 precedes a user item with
score 0.9. -/
theorem search_merge_sort_truncate :
    (∀ (u p : List MemoryItem) (lim : Option Nat),
      (searchBothScopes u p lim).Pairwise searchDescRel)
    ∧ (∀ u p : List MemoryItem,
        (List.insertionSort searchDescRel
            (tagScope "user" u ++ tagScope "project" p)).Perm
          (tagScope "user" u ++ tagScope "project" p))
    ∧ (∀ (u p : List MemoryItem) (a b : ScopedMemoryItem), searchDescRel a b →
        [a, b].Sublist (tagScope "user" u ++ tagScope "project" p) →
        [a, b].Sublist
          (List.insertionSort searchDescRel (tagScope "user" u ++ tagScope "project" p)))
    ∧ (∀ (u p : List MemoryItem) (lim : Option Nat),
        searchBothScopes u p lim
          = (List.insertionSort searchDescRel
              (tagScope "user" u ++ tagScope "project" p)).take (jsOrDefault lim 10))
    ∧ jsOrDefault none 10 = 10
    ∧ (∀ n : Nat, n ≠ 0 → jsOrDefault (some n) 10 = n)
    ∧ searchBothScopes [{ id := "u1", content := "cu", score := some (9/10) }]
        [{ id := "p1", content := "cp", score := some (95/100) }] none
      = [{ item := { id := "p1", content := "cp", score := some (95/100) },
           scope := "project" },
         { item := { id := "u1", content := "cu", score := some (9/10) },
           scope := "user" }] := by
  refine ⟨?_, ?_, ?_, fun _ _ _ => rfl, rfl, ?_, ?_⟩
  · intro u p lim
    exact List.Pairwise.sublist (List.take_sublist _ _)
      (List.sorted_insertionSort searchDescRel _)
  · intro u p
    exact List.perm_insertionSort searchDescRel _
  · intro u p a b hab hsub
    exact List.pair_sublist_insertionSort hab hsub
  · intro n h
    simp [jsOrDefault, h]
  · have hno : ¬ searchDescRel
        { item := { id := "u1", content := "cu", score := some (9/10) }, scope := "user" }
        { item := { id := "p1", content := "cp", score := some (95/100) },
          scope := "project" } := by
      simp only [searchDescRel, scoreOrZero, Option.getD_some, not_le]
      norm_num
    simp [searchBothScopes, tagScope, List.insertionSort, List.orderedInsert,
      if_neg hno, jsOrDefault]

/-- C2 witness: a tie at score 1 between a user item and a project item keeps
the user item first in the sorted output, and a nonzero requested limit of 3
is used as-is. -/
theorem search_merge_sort_truncate_witness :
    List.Sublist
      [({ item := { id := "u1", content := "cu", score := some 1 }, scope := "user" }
          : ScopedMemoryItem),
        { item := { id := "p1", content := "cp", score := some 1 }, scope := "project" }]
      (List.insertionSort searchDescRel
        (tagScope "user" [{ id := "u1", content := "cu", score := some 1 }]
          ++ tagScope "project" [{ id := "p1", content := "cp", score := some 1 }]))
    ∧ jsOrDefault (some 3) 10 = 3 :=
  ⟨search_merge_sort_truncate.2.2.1
      [{ id := "u1", content := "cu", score := some 1 }]
      [{ id := "p1", content := "cp", score := some 1 }]
      { item := { id := "u1", content := "cu", score := some 1 }, scope := "user" }
      { item := { id := "p1", content := "cp", score := some 1 }, scope := "project" }
      (by decide) (List.Sublist.refl _),
   search_merge_sort_truncate.2.2.2.2.2.1 3 (by decide)⟩

/-- Modelled from the spec: `src/services/privacy.ts` (the PrivacyGate of
§4.5) is not present under src/.  Content is modelled as a sequence of spans,
each flagged private or public by the caller-supplied convention; `priv`
marks a span as private. -/
structure ContentSpan where
  priv : Bool
  text : String
deriving DecidableEq

/-- Modelled from the spec: the raw payload text is the concatenation of all
spans. -/
def renderContent : List ContentSpan → String
  | [] => ""
  | s :: rest => s.text ++ renderContent rest

/-- Modelled from the spec: the §4.5 redaction pass strips content flagged as
private, keeping only the public spans. -/
def stripPrivateContent : List ContentSpan → String
  | [] => ""
  | s :: rest =>
    if s.priv then stripPrivateContent rest else s.text ++ stripPrivateContent rest

/-- Modelled from the spec: the §4.5 full-block check — the entire payload is
private when every span is flagged private. -/
def isFullyPrivate (spans : List ContentSpan) : Bool := spans.all (·.priv)

/-- `AddMemoryResult` from src/types/index.ts. -/
structure AddMemoryResult where
  success : Bool
  id : Option String := none
  error : Option String := none
deriving DecidableEq

/-- The observable outcome of the "add" command: `written` records the exact
content passed to `addMemory` (`none` when no write was attempted). -/
structure AddCommandOutcome where
  written : Option String
  success : Bool
  error : Option String
deriving DecidableEq

/-- The "add" branch of the `openmemory` tool (plugin entry point lines
273–315), parametrized by the backend write `backend`: reject a missing (empty,
falsy) `content`; sanitize with `stripPrivateContent`; reject a fully private
payload before any write; otherwise call `addMemory` with the sanitized
content and wrap its result.  `error: result.error || "Failed to add memory"`
is the JavaScript string-falsy fallback. -/
def addCommand (backend : String → AddMemoryResult) (spans : List ContentSpan) :
    AddCommandOutcome :=
  if renderContent spans = "" then
    { written := none, success := false,
      error := some "content parameter is required for add mode" }
  else
    let sanitizedContent := stripPrivateContent spans
    if isFullyPrivate spans then
      { written := none, success := false,
        error := some "Cannot store fully private content" }
    else
      let result := backend sanitizedContent
      if result.success = false then
        { written := some sanitizedContent, success := false,
          error := some (match result.error with
            | some e => if e = "" then "Failed to add memory" else e
            | none => "Failed to add memory") }
      else
        { written := some sanitizedContent, success := true, error := none }

/-- The redaction never lengthens the payload. -/
theorem stripPrivate_length_le (spans : List ContentSpan) :
    (stripPrivateContent spans).length ≤ (renderContent spans).length := by
  induction spans with
  | nil => simp [stripPrivateContent, renderContent]
  | cons s rest ih =>
    by_cases h : s.priv <;>
      simp [stripPrivateContent, renderContent, h, String.length_append] <;>
      omega

/-- Stripping a payload that contains a nonempty private span strictly
shortens it. -/
theorem stripPrivate_length_lt (spans : List ContentSpan)
    (h : ∃ s ∈ spans, s.priv = true ∧ s.text ≠ "") :
    (stripPrivateContent spans).length < (renderContent spans).length := by
  induction spans with
  | nil => simp at h
  | cons s rest ih =>
    obtain ⟨x, hx, hxp, hxt⟩ := h
    have hlen : 0 < x.text.length ∨ x.text = "" := by
      cases x.text with
      | mk data =>
        cases data with
        | nil => right; rfl
        | cons c cs => left; simp [String.length]
    rcases List.mem_cons.mp hx with rfl | hx'
    · have hpos : 0 < x.text.length := hlen.resolve_right hxt
      simp only [stripPrivateContent, renderContent, hxp, if_pos]
      have := stripPrivate_length_le rest
      rw [String.length_append]
      omega
    · by_cases hp : s.priv
      · have := ih ⟨x, hx', hxp, hxt⟩
        simp only [stripPrivateContent, renderContent, hp, if_pos]
        rw [String.length_append]
        omega
      · have := ih ⟨x, hx', hxp, hxt⟩
        simp only [stripPrivateContent, renderContent]
        rw [if_neg hp, String.length_append, String.length_append]
        omega

/-- C7: a fully private payload is rejected with a failure envelope and no
backend write; a payload that is not fully private is written with exactly the
redacted content, and when it contains a nonempty private span the written
content differs from the verbatim original. -/
theorem addCommand_privacy (backend : String → AddMemoryResult)
    (spans : List ContentSpan) :
    (isFullyPrivate spans = true →
      (addCommand backend spans).written = none
      ∧ (addCommand backend spans).success = false)
    ∧ (renderContent spans ≠ "" → isFullyPrivate spans = false →
        (addCommand backend spans).written = some (stripPrivateContent spans))
    ∧ ((∃ s ∈ spans, s.priv = true ∧ s.text ≠ "") →
        stripPrivateContent spans ≠ renderContent spans) := by
  refine ⟨?_, ?_, ?_⟩
  · intro hfull
    by_cases hr : renderContent spans = ""
    · simp [addCommand, hr]
    · simp [addCommand, hr, hfull]
  · intro hr hfull
    by_cases hb : (backend (stripPrivateContent spans)).success = false <;>
      simp [addCommand, hr, hfull, hb]
  · intro h heq
    have := stripPrivate_length_lt spans h
    rw [heq] at this
    omega

/-- C7 witness: a concrete fully private payload is rejected without a write;
a concrete mixed payload writes only its public part, which differs from the
original. -/
theorem addCommand_privacy_witness :
    ((addCommand (fun _ => { success := true, id := some "id1" })
        [{ priv := true, text := "secret" }]).written = none
      ∧ (addCommand (fun _ => { success := true, id := some "id1" })
          [{ priv := true, text := "secret" }]).success = false)
    ∧ (addCommand (fun _ => { success := true, id := some "id1" })
        [{ priv := true, text := "secret" }, { priv := false, text := "keep" }]).written
      = some (stripPrivateContent
          [{ priv := true, text := "secret" }, { priv := false, text := "keep" }])
    ∧ stripPrivateContent
        [{ priv := true, text := "secret" }, { priv := false, text := "keep" }]
      ≠ renderContent
          [{ priv := true, text := "secret" }, { priv := false, text := "keep" }] :=
  ⟨(addCommand_privacy (fun _ => { success := true, id := some "id1" })
      [{ priv := true, text := "secret" }]).1 rfl,
   (addCommand_privacy (fun _ => { success := true, id := some "id1" })
      [{ priv := true, text := "secret" }, { priv := false, text := "keep" }]).2.1
      (by decide) rfl,
   (addCommand_privacy (fun _ => { success := true, id := some "id1" })
      [{ priv := true, text := "secret" }, { priv := false, text := "keep" }]).2.2
      ⟨{ priv := true, text := "secret" }, by decide⟩⟩

/-- `TemporalFact` from src/types/index.ts; validity instants are modelled as
integer epoch milliseconds (`metadata`/`created_at` omitted, unused here). -/
structure TemporalFact where
  id : String
  subject : String
  predicate : String
  object : String
  valid_from : Int
  valid_to : Option Int := none
  confidence : ℚ := 1
deriving DecidableEq

/-- `GetCurrentFactResult` from src/types/index.ts. -/
structure GetCurrentFactResult where
  success : Bool
  fact : Option TemporalFact := none
  error : Option String := none
deriving DecidableEq

/-- An HTTP response as observed by the client: status code and body text,
plus the fact the body parses to when it is a fact payload. -/
structure HttpResponse where
  status : Nat
  body : String
deriving DecidableEq

/-- `Response.ok`: status in the 2xx range `[200, 300)`. -/
def responseOk (r : HttpResponse) : Bool :=
  decide (200 ≤ r.status) && decide (r.status < 300)

/-- `OpenMemoryRESTClient.getCurrentFact` (src/services/client.ts lines
406–433) after its HTTP call resolved to `resp`, whose JSON body parses to
`parsed` on the success path: a 404 is mapped to success with no fact; any
other non-ok status yields a failure envelope carrying status and body. -/
def getCurrentFact (resp : HttpResponse) (parsed : Option TemporalFact) :
    GetCurrentFactResult :=
  if responseOk resp = false then
    if resp.status = 404 then { success := true, fact := none }
    else
      { success := false,
        error := some ("HTTP " ++ toString resp.status ++ ": " ++ resp.body) }
  else { success := true, fact := parsed }

/-- C9: a 404 backend response makes `getCurrentFact` succeed with an empty
result, and every other non-2xx status yields a failure envelope carrying the
status code and response body text. -/
theorem getCurrentFact_status (resp : HttpResponse) (parsed : Option TemporalFact) :
    (resp.status = 404 →
      getCurrentFact resp parsed = { success := true, fact := none, error := none })
    ∧ (responseOk resp = false → resp.status ≠ 404 →
        getCurrentFact resp parsed
          = { success := false, fact := none,
              error := some ("HTTP " ++ toString resp.status ++ ": " ++ resp.body) }) := by
  constructor
  · intro h404
    have hok : responseOk resp = false := by
      simp [responseOk, h404]
    simp [getCurrentFact, hok, h404]
  · intro hok hne
    simp [getCurrentFact, hok, hne]

/-- C9 witness: a concrete 404 succeeds with no fact; a concrete 500 fails
with the status and body in the error. -/
theorem getCurrentFact_status_witness :
    getCurrentFact { status := 404, body := "not found" } none
      = { success := true, fact := none, error := none }
    ∧ getCurrentFact { status := 500, body := "oops" } none
      = { success := false, fact := none, error := some ("HTTP " ++ toString 500 ++ ": " ++ "oops") } :=
  ⟨(getCurrentFact_status { status := 404, body := "not found" } none).1 rfl,
   (getCurrentFact_status { status := 500, body := "oops" } none).2 (by decide)
     (by decide)⟩

/-- Modelled from the spec: the point-in-time validity predicate of §4.7
(`valid_from ≤ at < valid_to or valid_to unset`); the set-diff itself runs in
the backend `/api/temporal/compare` endpoint, which is outside src/, so it is
modelled from §4.7 here. -/
def factValidAt (t : Int) (f : TemporalFact) : Bool :=
  decide (f.valid_from ≤ t)
    && (match f.valid_to with
        | none => true
        | some v => decide (t < v))

/-- Modelled from the spec: the snapshot of a subject's facts valid at a
given instant (§4.7 `queryFacts` with `subject` and `at`). -/
def factsValidAt (facts : List TemporalFact) (subject : String) (t : Int) :
    List TemporalFact :=
  (facts.filter (fun f => f.subject == subject)).filter (factValidAt t)

/-- The categorized payload of `CompareFactsResult` (src/types/index.ts). -/
structure CompareFactsOutcome where
  added : List TemporalFact
  removed : List TemporalFact
  changed : List (TemporalFact × TemporalFact)
  unchanged : List TemporalFact
deriving DecidableEq

/-- Modelled from the spec: `compareFacts(subject, time1, time2)` of §4.7 —
the facts valid at `time1` versus `time2`, categorized: a fact of the second
snapshot whose predicate is absent from the first is added; a fact of the
first snapshot whose predicate is absent from the second is removed; a fact
of the second snapshot whose predicate appears in the first with a different
object is changed (paired with the prior version); a fact matching on both
predicate and object is unchanged. -/
def compareFacts (facts : List TemporalFact) (subject : String) (t1 t2 : Int) :
    CompareFactsOutcome where
  added := (factsValidAt facts subject t2).filter
    (fun f => !((factsValidAt facts subject t1).any
      (fun g => g.predicate == f.predicate)))
  removed := (factsValidAt facts subject t1).filter
    (fun f => !((factsValidAt facts subject t2).any
      (fun g => g.predicate == f.predicate)))
  changed := (factsValidAt facts subject t2).filterMap (fun f =>
    if (factsValidAt facts subject t1).any
        (fun g => g.predicate == f.predicate && g.object == f.object) then none
    else ((factsValidAt facts subject t1).find?
      (fun g => g.predicate == f.predicate)).map (fun g => (g, f)))
  unchanged := (factsValidAt facts subject t2).filter
    (fun f => (factsValidAt facts subject t1).any
      (fun g => g.predicate == f.predicate && g.object == f.object))

/-- C10: comparing a subject's facts at a time against the same time is the
identity diff — added, removed and changed are empty and unchanged is the
full snapshot of facts valid at that time. -/
theorem compareFacts_idempotent (facts : List TemporalFact) (subject : String)
    (t : Int) :
    compareFacts facts subject t t
      = { added := [], removed := [], changed := [],
          unchanged := factsValidAt facts subject t } := by
  have hself : ∀ f ∈ factsValidAt facts subject t,
      (factsValidAt facts subject t).any
        (fun g => g.predicate == f.predicate && g.object == f.object) = true :=
    fun f hf => List.any_eq_true.mpr ⟨f, hf, by simp⟩
  have hpred : ∀ f ∈ factsValidAt facts subject t,
      (factsValidAt facts subject t).any (fun g => g.predicate == f.predicate) = true :=
    fun f hf => List.any_eq_true.mpr ⟨f, hf, by simp⟩
  have h1 : (compareFacts facts subject t t).added = [] :=
    List.filter_eq_nil_iff.mpr fun f hf => by simp [hpred f hf]
  have h2 : (compareFacts facts subject t t).removed = [] :=
    List.filter_eq_nil_iff.mpr fun f hf => by simp [hpred f hf]
  have h3 : (compareFacts facts subject t t).changed = [] :=
    List.filterMap_eq_nil_iff.mpr fun f hf => by simp [hself f hf]
  have h4 : (compareFacts facts subject t t).unchanged = factsValidAt facts subject t :=
    List.filter_eq_self.mpr fun f hf => hself f hf
  have hrepr : compareFacts facts subject t t
      = { added := (compareFacts facts subject t t).added,
          removed := (compareFacts facts subject t t).removed,
          changed := (compareFacts facts subject t t).changed,
          unchanged := (compareFacts facts subject t t).unchanged } := rfl
  rw [hrepr, h1, h2, h3, h4]
